import Mathlib

/-!
Verification of the `freepdk-gen` UART timing synthesiser.

Shallow embedding of the Rust sources:
  * `src/mcu.rs` — `Frequency::from_str` (unit-suffix parsing over `u32`);
  * `src/uart.rs` — `UartGeneratorBuilder::build`, `UartGenerator::generate`,
    `generate_space_optimal_nop_chain`, and the relevant pieces of
    `UART_TEMPLATE`.

Modelling conventions: `u32` values are `ℕ` with explicit `< 2 ^ 32` bounds
where overflow is possible; `f64` arithmetic on `expected_clocks_per_bit`
(a quotient of two `u32` values, always nonnegative) is modelled exactly
over `ℚ`, with `f64::round` (round half away from zero, which on
nonnegative arguments agrees with round half up) modelled by Mathlib's
`round`; Rust `panic!` and `Result`-style failures are modelled by
`Option`/`Except`.
-/

namespace FreepdkGen

/-! ## src/mcu.rs : `Frequency::from_str` -/

/-- The number of values of `u32`; a multiplication overflows `u32` iff its
mathematical result is `≥ u32Size`. -/
def u32Size : ℕ := 2 ^ 32

/-- Value of a (all-digit, ASCII) character list read in base 10, as done by
Rust's `str::parse::<u32>` on its digit input. -/
def digitsToNat (l : List Char) : ℕ :=
  l.foldl (fun acc c => acc * 10 + (c.toNat - 48)) 0

/-- Model of Rust `str::parse::<u32>` as invoked by `Frequency::from_str`
(src/mcu.rs:19,24): the input is a (possibly empty) run of decimal digits;
parsing fails on the empty string and when the value does not fit in `u32`. -/
def parseU32 (l : List Char) : Option ℕ :=
  if l = [] then none
  else
    let v := digitsToNat l
    if v < u32Size then some v else none

/-- Model of `Frequency::from_str` (src/mcu.rs:16-41), on the list of
characters of the input (for the ASCII inputs concerned, Rust's byte-position
`str::find`/`split_at` coincide with character positions):
split at the first non-digit character; parse the prefix as `u32`; map the
lowercased suffix through {hz → 1, khz → 1000, mhz → 1000000}; multiply with
overflow detection (`u32::overflowing_mul`, src/mcu.rs:35). -/
def frequencyFromStr (s : List Char) : Except String ℕ :=
  match s.findIdx? (fun c => !c.isDigit) with
  | none =>
    match parseU32 s with
    | some v => .ok v
    | none => .error "Frequency is not a number"
  | some splitPos =>
    let valueStr := s.take splitPos
    let multiplierStr := s.drop splitPos
    match parseU32 valueStr with
    | none => .error "Frequency is not a number"
    | some value =>
      let lowered := multiplierStr.map Char.toLower
      if lowered = "hz".toList then
        if value * 1 < u32Size then .ok (value * 1) else .error "Frequency is too big"
      else if lowered = "khz".toList then
        if value * 1000 < u32Size then .ok (value * 1000) else .error "Frequency is too big"
      else if lowered = "mhz".toList then
        if value * 1000000 < u32Size then .ok (value * 1000000)
        else .error "Frequency is too big"
      else .error "Invalid frequency suffix"

/-! ## src/mcu.rs : `StopBits` -/

/-- `StopBits` (src/mcu.rs:111-115). -/
inductive StopBits
  | one
  | two
  | oneAndHalf
deriving DecidableEq, Repr

/-! ## src/uart.rs : constants and error type -/

/-- `DEFAULT_MAX_CLOCK_DERIVATION` (src/uart.rs:12), the `f64` literal `0.01`. -/
def DEFAULT_MAX_CLOCK_DERIVATION : ℚ := 1 / 100

/-- `MAX_CLOCKS_PER_BIT` (src/uart.rs:13). -/
def MAX_CLOCKS_PER_BIT : ℕ := 256 * 4

/-- `MIN_CLOCKS_PER_BIT` (src/uart.rs:14). -/
def MIN_CLOCKS_PER_BIT : ℕ := 16

/-- `uart::Error` (src/uart.rs:16-32); the `TemplateFailure` case is omitted
(it can only arise from the text templater, which is out of scope of the
timing claims and cannot be produced by `build`). -/
inductive UartError
  | invalidOptions
  | tooManyClocksPerBit (n : ℕ)
  | tooManyClocksPerStopBit (n : ℕ)
  | tooBigClockDerivation (d : ℚ)
  | veryFewClocksPerBit (n : ℕ)
  | veryFewClocksPerHalfBit (n : ℕ)
deriving DecidableEq, Repr

/-! ## src/uart.rs : `UartGenerator` and the builder -/

/-- `UartGenerator` (src/uart.rs:322-335), restricted to the fields the
timing claims depend on; the TX/RX port, pin and invert flags are carried
through `build` unchanged and unexamined, and are omitted. -/
structure UartGenerator where
  frequency : ℕ
  baud : ℕ
  clocksPerBit : ℕ
  clocksPerHalfBit : ℕ
  clocksPerStopBit : ℕ
  uartNum : ℕ
deriving DecidableEq, Repr

/-- The `clocks_per_stop_bit` selection of `UartGeneratorBuilder::build`
(src/uart.rs:120-124). -/
def stopBitClocks (expected : ℚ) (clocksPerBit : ℕ) (sb : StopBits) : ℕ :=
  match sb with
  | .one => clocksPerBit
  | .two => (round (expected * 2)).toNat
  | .oneAndHalf => (round (expected * (3 / 2))).toNat

/-- `UartGeneratorBuilder::build` (src/uart.rs:82-150), starting after the
required-field unwrapping: the numeric validation pipeline.  `freq` and
`baud` are the `u32` inputs; `maxClockDerivation` is the builder's optional
tolerance (src/uart.rs:89-90); the error at the half-bit check carries
`clocks_per_bit`, exactly as src/uart.rs:133 does. -/
def build (freq baud : ℕ) (sb : StopBits) (maxClockDerivation : Option ℚ)
    (uartNum : ℕ) : Except UartError UartGenerator :=
  let maxClockRateDerivation := maxClockDerivation.getD DEFAULT_MAX_CLOCK_DERIVATION
  let expectedClocksPerBit : ℚ := (freq : ℚ) / (baud : ℚ)
  let clocksPerBit : ℕ := (round expectedClocksPerBit).toNat
  if clocksPerBit > MAX_CLOCKS_PER_BIT then
    .error (.tooManyClocksPerBit clocksPerBit)
  else if clocksPerBit < MIN_CLOCKS_PER_BIT then
    .error (.veryFewClocksPerBit clocksPerBit)
  else
    let clockDerivation := |(clocksPerBit : ℚ) - expectedClocksPerBit| / expectedClocksPerBit
    if clockDerivation > maxClockRateDerivation then
      .error (.tooBigClockDerivation maxClockRateDerivation)
    else
      let clocksPerStopBit := stopBitClocks expectedClocksPerBit clocksPerBit sb
      if clocksPerStopBit > MAX_CLOCKS_PER_BIT then
        .error (.tooManyClocksPerStopBit clocksPerStopBit)
      else
        let clocksPerHalfBit : ℕ := (round (expectedClocksPerBit * (1 / 2))).toNat
        if clocksPerHalfBit < MIN_CLOCKS_PER_BIT then
          .error (.veryFewClocksPerHalfBit clocksPerBit)
        else
          .ok { frequency := freq, baud := baud, clocksPerBit := clocksPerBit,
                clocksPerHalfBit := clocksPerHalfBit,
                clocksPerStopBit := clocksPerStopBit, uartNum := uartNum }

/-! ## src/uart.rs : `generate_space_optimal_nop_chain` -/

/-- `generate_space_optimal_nop_chain` (src/uart.rs:337-345).  The strings
are the emitted instruction lines; the `panic!` on any count `≥ 4`
(src/uart.rs:343) is modelled by `none`. -/
def generateSpaceOptimalNopChain (count : ℕ) : Option (List String) :=
  match count with
  | 0 => some []
  | 1 => some ["nop ; 1T"]
  | 2 => some ["goto .+1 ; 2T"]
  | 3 => some ["goto .+1 ; 2T", "nop ; 1T"]
  | _ => none

/-- Cycle cost of one emitted tail instruction, per the cycle annotations the
instruction strings of `generate_space_optimal_nop_chain` carry
(src/uart.rs:340-342): a `nop` takes 1 clock, a `goto .+1` takes 2. -/
def instructionCycles (i : String) : ℕ :=
  if i = "nop ; 1T" then 1
  else if i = "goto .+1 ; 2T" then 2
  else 0

/-! ## src/uart.rs : `UartGenerator::generate`, the five wait-point
decompositions (src/uart.rs:352-435).  The local `const` items of `generate`
become top-level definitions with their source names. -/

/-- `WAIT_LOOP_MISSING_LOCKS` (src/uart.rs:353): the cycle added back because
the last `dzsn` iteration of the 4-cycle wait loop is one cycle shorter. -/
def WAIT_LOOP_MISSING_LOCKS : ℕ := 1

/-- `TX_SET_WAIT_LOOP_COUNTER_CLOCKS` (src/uart.rs:354). -/
def TX_SET_WAIT_LOOP_COUNTER_CLOCKS : ℕ := 1

/-- `TX_SET_PIN_CLOCKS` (src/uart.rs:355). -/
def TX_SET_PIN_CLOCKS : ℕ := 1

/-- `TX_BIT_SET_LOOP_LAG_CLOCKS` (src/uart.rs:357). -/
def TX_BIT_SET_LOOP_LAG_CLOCKS : ℕ := 5

/-- `TX_RESET_BIT_COUNTER_CLOCKS` (src/uart.rs:358). -/
def TX_RESET_BIT_COUNTER_CLOCKS : ℕ := 2

/-- `TX_BIT_COMPARE_AND_SET_PIN_CLOCKS` (src/uart.rs:372). -/
def TX_BIT_COMPARE_AND_SET_PIN_CLOCKS : ℕ := 8

/-- `TX_COMPARE_BIT_COUNT_CLOCKS` (src/uart.rs:373). -/
def TX_COMPARE_BIT_COUNT_CLOCKS : ℕ := 3

/-- `RX_CHECK_START_BIT_CLOCKS` (src/uart.rs:399). -/
def RX_CHECK_START_BIT_CLOCKS : ℕ := 2

/-- `RX_FUNCTION_PRELUDE` (src/uart.rs:400). -/
def RX_FUNCTION_PRELUDE : ℕ := 1

/-- `RX_SET_START_BIT_WAIT_LOOP_COUNTER_CLOCKS` (src/uart.rs:401). -/
def RX_SET_START_BIT_WAIT_LOOP_COUNTER_CLOCKS : ℕ := 1

/-- `RX_VALIDATE_START_BIT_CLOCKS` (src/uart.rs:402). -/
def RX_VALIDATE_START_BIT_CLOCKS : ℕ := 2

/-- `RX_SET_BIT_COUNTER_CLOCKS` (src/uart.rs:403). -/
def RX_SET_BIT_COUNTER_CLOCKS : ℕ := 2

/-- `RX_BIT_LOOP_LAG_CLOCKS` (src/uart.rs:404). -/
def RX_BIT_LOOP_LAG_CLOCKS : ℕ := 6

/-- `RX_SET_BIT_WAIT_LOOP_COUNTER_CLOCKS` (src/uart.rs:406). -/
def RX_SET_BIT_WAIT_LOOP_COUNTER_CLOCKS : ℕ := 1

/-- `RX_SHIFT_CARRY_CLOCKS` (src/uart.rs:407). -/
def RX_SHIFT_CARRY_CLOCKS : ℕ := 1

/-- `RX_DEC_BIT_COUNTER_CLOCKS` (src/uart.rs:408). -/
def RX_DEC_BIT_COUNTER_CLOCKS : ℕ := 1

/-- `RX_CHECK_BIT_CLOCKS` (src/uart.rs:409). -/
def RX_CHECK_BIT_CLOCKS : ℕ := 3

/-- `RX_CHECK_BIT_COUNTER_CLOCKS` (src/uart.rs:410). -/
def RX_CHECK_BIT_COUNTER_CLOCKS : ℕ := 3

/-- `tx_start_bit_wait_clocks` (src/uart.rs:360-365); the `u32`
subtractions are sequential, left to right, as in the source. -/
def txStartBitWaitClocks (g : UartGenerator) : ℕ :=
  g.clocksPerBit
    - TX_BIT_SET_LOOP_LAG_CLOCKS
    - TX_SET_WAIT_LOOP_COUNTER_CLOCKS
    - TX_SET_PIN_CLOCKS
    - TX_RESET_BIT_COUNTER_CLOCKS
    + WAIT_LOOP_MISSING_LOCKS

/-- `tx_start_bit_wait_cycles` (src/uart.rs:367). -/
def txStartBitWaitCycles (g : UartGenerator) : ℕ := txStartBitWaitClocks g / 4

/-- `tx_start_bit_tail_wait_cycles` (src/uart.rs:368). -/
def txStartBitTailWaitCycles (g : UartGenerator) : ℕ := txStartBitWaitClocks g % 4

/-- `tx_bit_wait_clocks` (src/uart.rs:375-379). -/
def txBitWaitClocks (g : UartGenerator) : ℕ :=
  g.clocksPerBit
    - TX_BIT_COMPARE_AND_SET_PIN_CLOCKS
    - TX_SET_WAIT_LOOP_COUNTER_CLOCKS
    - TX_COMPARE_BIT_COUNT_CLOCKS
    + WAIT_LOOP_MISSING_LOCKS

/-- `tx_bit_wait_cycles` (src/uart.rs:381). -/
def txBitWaitCycles (g : UartGenerator) : ℕ := txBitWaitClocks g / 4

/-- `tx_bit_tail_wait_cycles` (src/uart.rs:382). -/
def txBitTailWaitCycles (g : UartGenerator) : ℕ := txBitWaitClocks g % 4

/-- `tx_stop_bit_wait_clocks` (src/uart.rs:386-390). -/
def txStopBitWaitClocks (g : UartGenerator) : ℕ :=
  g.clocksPerStopBit
    - TX_BIT_SET_LOOP_LAG_CLOCKS
    - TX_SET_PIN_CLOCKS
    - TX_SET_WAIT_LOOP_COUNTER_CLOCKS
    + WAIT_LOOP_MISSING_LOCKS

/-- `tx_stop_bit_wait_cycles` (src/uart.rs:392). -/
def txStopBitWaitCycles (g : UartGenerator) : ℕ := txStopBitWaitClocks g / 4

/-- `tx_stop_bit_tail_wait_cycles` (src/uart.rs:393). -/
def txStopBitTailWaitCycles (g : UartGenerator) : ℕ := txStopBitWaitClocks g % 4

/-- `rx_start_bit_wait_clocks` (src/uart.rs:412-419). -/
def rxStartBitWaitClocks (g : UartGenerator) : ℕ :=
  g.clocksPerHalfBit
    - RX_CHECK_START_BIT_CLOCKS
    - RX_FUNCTION_PRELUDE
    - RX_SET_START_BIT_WAIT_LOOP_COUNTER_CLOCKS
    - RX_VALIDATE_START_BIT_CLOCKS
    - RX_SET_BIT_COUNTER_CLOCKS
    + WAIT_LOOP_MISSING_LOCKS
    + RX_BIT_LOOP_LAG_CLOCKS

/-- `rx_start_bit_wait_cycles` (src/uart.rs:420). -/
def rxStartBitWaitCycles (g : UartGenerator) : ℕ := rxStartBitWaitClocks g / 4

/-- `rx_start_bit_tail_wait_cycles` (src/uart.rs:421). -/
def rxStartBitTailWaitCycles (g : UartGenerator) : ℕ := rxStartBitWaitClocks g % 4

/-- `rx_bit_wait_clocks` (src/uart.rs:425-431). -/
def rxBitWaitClocks (g : UartGenerator) : ℕ :=
  g.clocksPerBit
    - RX_SHIFT_CARRY_CLOCKS
    - RX_SET_BIT_WAIT_LOOP_COUNTER_CLOCKS
    - RX_DEC_BIT_COUNTER_CLOCKS
    - RX_CHECK_BIT_CLOCKS
    - RX_CHECK_BIT_COUNTER_CLOCKS
    + WAIT_LOOP_MISSING_LOCKS

/-- `rx_bit_wait_cycles` (src/uart.rs:432). -/
def rxBitWaitCycles (g : UartGenerator) : ℕ := rxBitWaitClocks g / 4

/-- `rx_bit_tail_wait_cycles` (src/uart.rs:433). -/
def rxBitTailWaitCycles (g : UartGenerator) : ℕ := rxBitWaitClocks g % 4

/-! ## src/uart.rs : function naming and the stop-bit template literal -/

/-- The TX function name the generator emits.  `UartGenerator::generate`
derives it unconditionally from the instance number
(src/uart.rs:397, the Rust expression is the interpolation of
`self.uart_num` into a fixed pattern); the `--tx-function-name` argument
(`UartSubcommand::tx_function_name`, src/config.rs:35-36) is accepted by the
command line but never read by `load_config` (src/uart.rs:56-74) nor by
`generate`, which is why it appears here as an unused parameter. -/
def generatedTxFunctionName (_txFunctionNameArg : Option String)
    (uartNum : ℕ) : String :=
  "uart" ++ toString uartNum ++ "_send"

/-- The RX function name `uartN_receive` (src/uart.rs:437). -/
def generatedRxFunctionName (uartNum : ℕ) : String :=
  "uart" ++ toString uartNum ++ "_receive"

/-- The operand of the instruction initialising the TX stop-bit wait-loop
counter in `UART_TEMPLATE`: the template emits the fixed text
`MOV a, #15` (src/uart.rs:249) rather than interpolating
`tx_stop_bit_wait_cycles`, so the emitted operand is the constant 15
whatever the plan. -/
def templateTxStopBitCounterOperand (_g : UartGenerator) : ℕ := 15

/-! ## Helper lemmas -/

/-- Characterisation used to compute `round` on concrete rationals. -/
theorem round_eq_of (q : ℚ) (z : ℤ) (h₁ : (z : ℚ) ≤ q + 1 / 2)
    (h₂ : q + 1 / 2 < z + 1) : round q = z := by
  rw [round_eq]
  exact Int.floor_eq_iff.mpr ⟨h₁, h₂⟩

/-- Variant of `round_eq_of` producing the `u32`-cast (`Int.toNat`) value
`build` stores. -/
theorem round_toNat_eq_of (q : ℚ) (n : ℕ) (h₁ : (n : ℚ) ≤ q + 1 / 2)
    (h₂ : q + 1 / 2 < n + 1) : (round q).toNat = n := by
  have h : round q = (n : ℤ) := round_eq_of q n h₁ (by push_cast; exact h₂)
  rw [h, Int.toNat_natCast]

/-- Everything a successful `build` guarantees: the field values and the
guard conditions of every `if` on the `Ok` path. -/
theorem build_ok_spec {freq baud uartNum : ℕ} {sb : StopBits} {md : Option ℚ}
    {g : UartGenerator}
    (h : build freq baud sb md uartNum = .ok g) :
    g.frequency = freq ∧ g.baud = baud ∧ g.uartNum = uartNum ∧
    g.clocksPerBit = (round ((freq : ℚ) / (baud : ℚ))).toNat ∧
    g.clocksPerHalfBit = (round ((freq : ℚ) / (baud : ℚ) * (1 / 2))).toNat ∧
    g.clocksPerStopBit = stopBitClocks ((freq : ℚ) / (baud : ℚ)) g.clocksPerBit sb ∧
    MIN_CLOCKS_PER_BIT ≤ g.clocksPerBit ∧
    g.clocksPerBit ≤ MAX_CLOCKS_PER_BIT ∧
    g.clocksPerStopBit ≤ MAX_CLOCKS_PER_BIT ∧
    MIN_CLOCKS_PER_BIT ≤ g.clocksPerHalfBit ∧
    |(g.clocksPerBit : ℚ) - (freq : ℚ) / (baud : ℚ)| / ((freq : ℚ) / (baud : ℚ))
      ≤ md.getD DEFAULT_MAX_CLOCK_DERIVATION := by
  simp only [build] at h
  split at h
  · exact absurd h (by simp)
  split at h
  · exact absurd h (by simp)
  split at h
  · exact absurd h (by simp)
  split at h
  · exact absurd h (by simp)
  split at h
  · exact absurd h (by simp)
  rename_i h1 h2 h3 h4 h5
  rw [Except.ok.injEq] at h
  subst h
  refine ⟨rfl, rfl, rfl, rfl, rfl, rfl, ?_, ?_, ?_, ?_, ?_⟩
  · exact Nat.le_of_not_lt h2
  · exact Nat.le_of_not_lt h1
  · exact Nat.le_of_not_lt h4
  · exact Nat.le_of_not_lt h5
  · exact le_of_not_lt h3

/-- A successful `build` also bounds the stop-bit clock count from below:
`clocks_per_bit ≥ 16` forces `expected ≥ 15.5`, hence
`round(expected·2) ≥ 31` and `round(expected·1.5) ≥ 23`. -/
theorem build_ok_stopBit_ge {freq baud uartNum : ℕ} {sb : StopBits}
    {md : Option ℚ} {g : UartGenerator}
    (h : build freq baud sb md uartNum = .ok g) :
    MIN_CLOCKS_PER_BIT ≤ g.clocksPerStopBit := by
  obtain ⟨-, -, -, hbit, -, hstop, hmin, -⟩ := build_ok_spec h
  have h16 : (16 : ℤ) ≤ round ((freq : ℚ) / (baud : ℚ)) := by
    rw [hbit] at hmin
    simp only [MIN_CLOCKS_PER_BIT] at hmin
    omega
  have he : (31 : ℚ) / 2 ≤ (freq : ℚ) / (baud : ℚ) := by
    rw [round_eq] at h16
    have := Int.le_floor.mp h16
    push_cast at this
    linarith
  rw [hstop]
  cases sb with
  | one => simpa only [stopBitClocks] using hmin
  | two =>
    have h31 : (31 : ℤ) ≤ round ((freq : ℚ) / (baud : ℚ) * 2) := by
      rw [round_eq]
      apply Int.le_floor.mpr
      push_cast
      linarith
    simp only [stopBitClocks, MIN_CLOCKS_PER_BIT]
    omega
  | oneAndHalf =>
    have h23 : (23 : ℤ) ≤ round ((freq : ℚ) / (baud : ℚ) * (3 / 2)) := by
      rw [round_eq]
      apply Int.le_floor.mpr
      push_cast
      linarith
    simp only [stopBitClocks, MIN_CLOCKS_PER_BIT]
    omega

/-! ## Concrete plans and build evaluations -/

/-- The plan `build` accepts for 8 MHz, 115200 baud, one stop bit
(scenario S1 of the spec). -/
def gen8m115200 : UartGenerator :=
  { frequency := 8000000, baud := 115200, clocksPerBit := 69,
    clocksPerHalfBit := 35, clocksPerStopBit := 69, uartNum := 0 }

/-- The plan `build` accepts for 4 MHz, 38400 baud, 1.5 stop bits
(scenario S5 of the spec). -/
def gen4m38400 : UartGenerator :=
  { frequency := 4000000, baud := 38400, clocksPerBit := 104,
    clocksPerHalfBit := 52, clocksPerStopBit := 156, uartNum := 0 }

theorem build_8m_115200 :
    build 8000000 115200 StopBits.one none 0 = .ok gen8m115200 := by
  have he : ((8000000 : ℕ) : ℚ) / ((115200 : ℕ) : ℚ) = 625 / 9 := by norm_num
  have h1 : (round ((625 : ℚ) / 9)).toNat = 69 :=
    round_toNat_eq_of _ _ (by norm_num) (by norm_num)
  have h2 : (round ((625 : ℚ) / 9 * (1 / 2))).toNat = 35 :=
    round_toNat_eq_of _ _ (by norm_num) (by norm_num)
  simp only [build, stopBitClocks, he, h1, h2, Option.getD_none]
  rw [if_neg (by norm_num [MAX_CLOCKS_PER_BIT]),
    if_neg (by norm_num [MIN_CLOCKS_PER_BIT]),
    if_neg (by
      simp only [DEFAULT_MAX_CLOCK_DERIVATION]
      rw [not_lt, div_le_iff₀ (by norm_num), abs_le]
      constructor <;> norm_num),
    if_neg (by norm_num [MAX_CLOCKS_PER_BIT]),
    if_neg (by norm_num [MIN_CLOCKS_PER_BIT])]
  rfl

theorem build_4m_38400 :
    build 4000000 38400 StopBits.oneAndHalf none 0 = .ok gen4m38400 := by
  have he : ((4000000 : ℕ) : ℚ) / ((38400 : ℕ) : ℚ) = 625 / 6 := by norm_num
  have h1 : (round ((625 : ℚ) / 6)).toNat = 104 :=
    round_toNat_eq_of _ _ (by norm_num) (by norm_num)
  have h2 : (round ((625 : ℚ) / 6 * (1 / 2))).toNat = 52 :=
    round_toNat_eq_of _ _ (by norm_num) (by norm_num)
  have h3 : (round ((625 : ℚ) / 6 * (3 / 2))).toNat = 156 :=
    round_toNat_eq_of _ _ (by norm_num) (by norm_num)
  simp only [build, stopBitClocks, he, h1, h2, h3, Option.getD_none]
  rw [if_neg (by norm_num [MAX_CLOCKS_PER_BIT]),
    if_neg (by norm_num [MIN_CLOCKS_PER_BIT]),
    if_neg (by
      simp only [DEFAULT_MAX_CLOCK_DERIVATION]
      rw [not_lt, div_le_iff₀ (by norm_num), abs_le]
      constructor <;> norm_num),
    if_neg (by norm_num [MAX_CLOCKS_PER_BIT]),
    if_neg (by norm_num [MIN_CLOCKS_PER_BIT])]
  rfl

theorem build_3000_100 :
    build 3000 100 StopBits.one none 0
      = .error (.veryFewClocksPerHalfBit 30) := by
  have he : ((3000 : ℕ) : ℚ) / ((100 : ℕ) : ℚ) = 30 := by norm_num
  have h1 : (round ((30 : ℚ))).toNat = 30 :=
    round_toNat_eq_of _ _ (by norm_num) (by norm_num)
  have h2 : (round ((30 : ℚ) * (1 / 2))).toNat = 15 :=
    round_toNat_eq_of _ _ (by norm_num) (by norm_num)
  simp only [build, stopBitClocks, he, h1, h2, Option.getD_none]
  rw [if_neg (by norm_num [MAX_CLOCKS_PER_BIT]),
    if_neg (by norm_num [MIN_CLOCKS_PER_BIT]),
    if_neg (by
      simp only [DEFAULT_MAX_CLOCK_DERIVATION]
      rw [not_lt, div_le_iff₀ (by norm_num), abs_le]
      constructor <;> norm_num),
    if_neg (by norm_num [MAX_CLOCKS_PER_BIT]),
    if_pos (by norm_num [MIN_CLOCKS_PER_BIT])]

theorem build_8m_9600_two :
    build 8000000 9600 StopBits.two none 0
      = .error (.tooManyClocksPerStopBit 1667) := by
  have he : ((8000000 : ℕ) : ℚ) / ((9600 : ℕ) : ℚ) = 2500 / 3 := by norm_num
  have h1 : (round ((2500 : ℚ) / 3)).toNat = 833 :=
    round_toNat_eq_of _ _ (by norm_num) (by norm_num)
  have h2 : (round ((2500 : ℚ) / 3 * 2)).toNat = 1667 :=
    round_toNat_eq_of _ _ (by norm_num) (by norm_num)
  simp only [build, stopBitClocks, he, h1, h2, Option.getD_none]
  rw [if_neg (by norm_num [MAX_CLOCKS_PER_BIT]),
    if_neg (by norm_num [MIN_CLOCKS_PER_BIT]),
    if_neg (by
      simp only [DEFAULT_MAX_CLOCK_DERIVATION]
      rw [not_lt, div_le_iff₀ (by norm_num), abs_le]
      constructor <;> norm_num),
    if_pos (by norm_num [MAX_CLOCKS_PER_BIT])]

/-! ## Claim theorems -/

/-- C1: for every accepted plan, at each of the five wait points (TX start
bit, TX data bit, TX stop bit, RX half-bit sync, RX data bit) the computed
`(loop_iterations, tail_cycles)` pair satisfies
`4·loop_iterations − 1 + tail_cycles + fixed_overhead = target_clocks`,
where `target_clocks` is `clocks_per_bit` (`clocks_per_stop_bit` for the TX
stop point, `clocks_per_half_bit` for the RX sync point), `fixed_overhead`
is the sum of the compile-time overhead constants of that point (with the
RX bit-loop lag subtracted back out for the RX sync point), and the `− 1`
is the `dzsn` one-cycle correction. -/
theorem build_ok_wait_identities {freq baud uartNum : ℕ} {sb : StopBits}
    {md : Option ℚ} {g : UartGenerator}
    (h : build freq baud sb md uartNum = .ok g) :
    4 * txStartBitWaitCycles g - 1 + txStartBitTailWaitCycles g
        + (TX_BIT_SET_LOOP_LAG_CLOCKS + TX_SET_WAIT_LOOP_COUNTER_CLOCKS
            + TX_SET_PIN_CLOCKS + TX_RESET_BIT_COUNTER_CLOCKS)
      = g.clocksPerBit ∧
    4 * txBitWaitCycles g - 1 + txBitTailWaitCycles g
        + (TX_BIT_COMPARE_AND_SET_PIN_CLOCKS + TX_SET_WAIT_LOOP_COUNTER_CLOCKS
            + TX_COMPARE_BIT_COUNT_CLOCKS)
      = g.clocksPerBit ∧
    4 * txStopBitWaitCycles g - 1 + txStopBitTailWaitCycles g
        + (TX_BIT_SET_LOOP_LAG_CLOCKS + TX_SET_PIN_CLOCKS
            + TX_SET_WAIT_LOOP_COUNTER_CLOCKS)
      = g.clocksPerStopBit ∧
    4 * rxStartBitWaitCycles g - 1 + rxStartBitTailWaitCycles g
        + ((RX_CHECK_START_BIT_CLOCKS + RX_FUNCTION_PRELUDE
            + RX_SET_START_BIT_WAIT_LOOP_COUNTER_CLOCKS
            + RX_VALIDATE_START_BIT_CLOCKS + RX_SET_BIT_COUNTER_CLOCKS)
          - RX_BIT_LOOP_LAG_CLOCKS)
      = g.clocksPerHalfBit ∧
    4 * rxBitWaitCycles g - 1 + rxBitTailWaitCycles g
        + (RX_SHIFT_CARRY_CLOCKS + RX_SET_BIT_WAIT_LOOP_COUNTER_CLOCKS
            + RX_DEC_BIT_COUNTER_CLOCKS + RX_CHECK_BIT_CLOCKS
            + RX_CHECK_BIT_COUNTER_CLOCKS)
      = g.clocksPerBit := by
  obtain ⟨-, -, -, -, -, -, hmin, -, -, hhmin, -⟩ := build_ok_spec h
  have hsmin := build_ok_stopBit_ge h
  simp only [MIN_CLOCKS_PER_BIT] at hmin hhmin hsmin
  refine ⟨?_, ?_, ?_, ?_, ?_⟩ <;>
    simp only [txStartBitWaitCycles, txStartBitTailWaitCycles, txStartBitWaitClocks,
      txBitWaitCycles, txBitTailWaitCycles, txBitWaitClocks,
      txStopBitWaitCycles, txStopBitTailWaitCycles, txStopBitWaitClocks,
      rxStartBitWaitCycles, rxStartBitTailWaitCycles, rxStartBitWaitClocks,
      rxBitWaitCycles, rxBitTailWaitCycles, rxBitWaitClocks,
      TX_BIT_SET_LOOP_LAG_CLOCKS, TX_SET_WAIT_LOOP_COUNTER_CLOCKS,
      TX_SET_PIN_CLOCKS, TX_RESET_BIT_COUNTER_CLOCKS,
      TX_BIT_COMPARE_AND_SET_PIN_CLOCKS, TX_COMPARE_BIT_COUNT_CLOCKS,
      WAIT_LOOP_MISSING_LOCKS, RX_CHECK_START_BIT_CLOCKS, RX_FUNCTION_PRELUDE,
      RX_SET_START_BIT_WAIT_LOOP_COUNTER_CLOCKS, RX_VALIDATE_START_BIT_CLOCKS,
      RX_SET_BIT_COUNTER_CLOCKS, RX_BIT_LOOP_LAG_CLOCKS,
      RX_SET_BIT_WAIT_LOOP_COUNTER_CLOCKS, RX_SHIFT_CARRY_CLOCKS,
      RX_DEC_BIT_COUNTER_CLOCKS, RX_CHECK_BIT_CLOCKS,
      RX_CHECK_BIT_COUNTER_CLOCKS] <;>
    omega

/-- Witness for C1 at the accepted plan of 8 MHz / 115200 baud / one stop
bit. -/
theorem build_ok_wait_identities_witness :
    4 * txStartBitWaitCycles gen8m115200 - 1 + txStartBitTailWaitCycles gen8m115200
        + (TX_BIT_SET_LOOP_LAG_CLOCKS + TX_SET_WAIT_LOOP_COUNTER_CLOCKS
            + TX_SET_PIN_CLOCKS + TX_RESET_BIT_COUNTER_CLOCKS)
      = gen8m115200.clocksPerBit ∧
    4 * txBitWaitCycles gen8m115200 - 1 + txBitTailWaitCycles gen8m115200
        + (TX_BIT_COMPARE_AND_SET_PIN_CLOCKS + TX_SET_WAIT_LOOP_COUNTER_CLOCKS
            + TX_COMPARE_BIT_COUNT_CLOCKS)
      = gen8m115200.clocksPerBit ∧
    4 * txStopBitWaitCycles gen8m115200 - 1 + txStopBitTailWaitCycles gen8m115200
        + (TX_BIT_SET_LOOP_LAG_CLOCKS + TX_SET_PIN_CLOCKS
            + TX_SET_WAIT_LOOP_COUNTER_CLOCKS)
      = gen8m115200.clocksPerStopBit ∧
    4 * rxStartBitWaitCycles gen8m115200 - 1 + rxStartBitTailWaitCycles gen8m115200
        + ((RX_CHECK_START_BIT_CLOCKS + RX_FUNCTION_PRELUDE
            + RX_SET_START_BIT_WAIT_LOOP_COUNTER_CLOCKS
            + RX_VALIDATE_START_BIT_CLOCKS + RX_SET_BIT_COUNTER_CLOCKS)
          - RX_BIT_LOOP_LAG_CLOCKS)
      = gen8m115200.clocksPerHalfBit ∧
    4 * rxBitWaitCycles gen8m115200 - 1 + rxBitTailWaitCycles gen8m115200
        + (RX_SHIFT_CARRY_CLOCKS + RX_SET_BIT_WAIT_LOOP_COUNTER_CLOCKS
            + RX_DEC_BIT_COUNTER_CLOCKS + RX_CHECK_BIT_CLOCKS
            + RX_CHECK_BIT_COUNTER_CLOCKS)
      = gen8m115200.clocksPerBit :=
  build_ok_wait_identities build_8m_115200

/-- C2: whenever `build` returns `Ok`, the constructed generator satisfies
all the construction invariants: `16 ≤ clocks_per_bit ≤ 1024`,
`clocks_per_stop_bit ≤ 1024`, `clocks_per_half_bit ≥ 16`, and the relative
deviation of `clocks_per_bit` from `freq/baud` is at most the tolerance
(defaulting to 1% when unset). -/
theorem build_ok_invariants {freq baud uartNum : ℕ} {sb : StopBits}
    {md : Option ℚ} {g : UartGenerator}
    (h : build freq baud sb md uartNum = .ok g) :
    MIN_CLOCKS_PER_BIT ≤ g.clocksPerBit ∧
    g.clocksPerBit ≤ MAX_CLOCKS_PER_BIT ∧
    g.clocksPerStopBit ≤ MAX_CLOCKS_PER_BIT ∧
    MIN_CLOCKS_PER_BIT ≤ g.clocksPerHalfBit ∧
    |(g.clocksPerBit : ℚ) - (freq : ℚ) / (baud : ℚ)| / ((freq : ℚ) / (baud : ℚ))
      ≤ md.getD DEFAULT_MAX_CLOCK_DERIVATION := by
  obtain ⟨-, -, -, -, -, -, h1, h2, h3, h4, h5⟩ := build_ok_spec h
  exact ⟨h1, h2, h3, h4, h5⟩

/-- Witness for C2 at the accepted plan of 4 MHz / 38400 baud / 1.5 stop
bits. -/
theorem build_ok_invariants_witness :
    MIN_CLOCKS_PER_BIT ≤ gen4m38400.clocksPerBit ∧
    gen4m38400.clocksPerBit ≤ MAX_CLOCKS_PER_BIT ∧
    gen4m38400.clocksPerStopBit ≤ MAX_CLOCKS_PER_BIT ∧
    MIN_CLOCKS_PER_BIT ≤ gen4m38400.clocksPerHalfBit ∧
    |(gen4m38400.clocksPerBit : ℚ) - ((4000000 : ℕ) : ℚ) / ((38400 : ℕ) : ℚ)|
        / (((4000000 : ℕ) : ℚ) / ((38400 : ℕ) : ℚ))
      ≤ (none : Option ℚ).getD DEFAULT_MAX_CLOCK_DERIVATION :=
  build_ok_invariants build_4m_38400

/-- C10: for every generator `build` constructs, none of the five `u32`
subtraction chains of `generate` underflows: at each wait point the sum of
the subtracted fixed-overhead constants is at most the target clock count,
and consequently the `ℕ`-truncated chain satisfies the exact balance
`wait_clocks + overheads = target + 1`. -/
theorem build_ok_no_underflow {freq baud uartNum : ℕ} {sb : StopBits}
    {md : Option ℚ} {g : UartGenerator}
    (h : build freq baud sb md uartNum = .ok g) :
    (TX_BIT_SET_LOOP_LAG_CLOCKS + TX_SET_WAIT_LOOP_COUNTER_CLOCKS
        + TX_SET_PIN_CLOCKS + TX_RESET_BIT_COUNTER_CLOCKS ≤ g.clocksPerBit ∧
      txStartBitWaitClocks g + (TX_BIT_SET_LOOP_LAG_CLOCKS
          + TX_SET_WAIT_LOOP_COUNTER_CLOCKS + TX_SET_PIN_CLOCKS
          + TX_RESET_BIT_COUNTER_CLOCKS)
        = g.clocksPerBit + WAIT_LOOP_MISSING_LOCKS) ∧
    (TX_BIT_COMPARE_AND_SET_PIN_CLOCKS + TX_SET_WAIT_LOOP_COUNTER_CLOCKS
        + TX_COMPARE_BIT_COUNT_CLOCKS ≤ g.clocksPerBit ∧
      txBitWaitClocks g + (TX_BIT_COMPARE_AND_SET_PIN_CLOCKS
          + TX_SET_WAIT_LOOP_COUNTER_CLOCKS + TX_COMPARE_BIT_COUNT_CLOCKS)
        = g.clocksPerBit + WAIT_LOOP_MISSING_LOCKS) ∧
    (TX_BIT_SET_LOOP_LAG_CLOCKS + TX_SET_PIN_CLOCKS
        + TX_SET_WAIT_LOOP_COUNTER_CLOCKS ≤ g.clocksPerStopBit ∧
      txStopBitWaitClocks g + (TX_BIT_SET_LOOP_LAG_CLOCKS + TX_SET_PIN_CLOCKS
          + TX_SET_WAIT_LOOP_COUNTER_CLOCKS)
        = g.clocksPerStopBit + WAIT_LOOP_MISSING_LOCKS) ∧
    (RX_CHECK_START_BIT_CLOCKS + RX_FUNCTION_PRELUDE
        + RX_SET_START_BIT_WAIT_LOOP_COUNTER_CLOCKS
        + RX_VALIDATE_START_BIT_CLOCKS + RX_SET_BIT_COUNTER_CLOCKS
      ≤ g.clocksPerHalfBit ∧
      rxStartBitWaitClocks g + (RX_CHECK_START_BIT_CLOCKS + RX_FUNCTION_PRELUDE
          + RX_SET_START_BIT_WAIT_LOOP_COUNTER_CLOCKS
          + RX_VALIDATE_START_BIT_CLOCKS + RX_SET_BIT_COUNTER_CLOCKS)
        = g.clocksPerHalfBit + WAIT_LOOP_MISSING_LOCKS
            + RX_BIT_LOOP_LAG_CLOCKS) ∧
    (RX_SHIFT_CARRY_CLOCKS + RX_SET_BIT_WAIT_LOOP_COUNTER_CLOCKS
        + RX_DEC_BIT_COUNTER_CLOCKS + RX_CHECK_BIT_CLOCKS
        + RX_CHECK_BIT_COUNTER_CLOCKS ≤ g.clocksPerBit ∧
      rxBitWaitClocks g + (RX_SHIFT_CARRY_CLOCKS
          + RX_SET_BIT_WAIT_LOOP_COUNTER_CLOCKS + RX_DEC_BIT_COUNTER_CLOCKS
          + RX_CHECK_BIT_CLOCKS + RX_CHECK_BIT_COUNTER_CLOCKS)
        = g.clocksPerBit + WAIT_LOOP_MISSING_LOCKS) := by
  obtain ⟨-, -, -, -, -, -, hmin, -, -, hhmin, -⟩ := build_ok_spec h
  have hsmin := build_ok_stopBit_ge h
  simp only [MIN_CLOCKS_PER_BIT] at hmin hhmin hsmin
  refine ⟨⟨?_, ?_⟩, ⟨?_, ?_⟩, ⟨?_, ?_⟩, ⟨?_, ?_⟩, ⟨?_, ?_⟩⟩ <;>
    simp only [txStartBitWaitClocks, txBitWaitClocks, txStopBitWaitClocks,
      rxStartBitWaitClocks, rxBitWaitClocks,
      TX_BIT_SET_LOOP_LAG_CLOCKS, TX_SET_WAIT_LOOP_COUNTER_CLOCKS,
      TX_SET_PIN_CLOCKS, TX_RESET_BIT_COUNTER_CLOCKS,
      TX_BIT_COMPARE_AND_SET_PIN_CLOCKS, TX_COMPARE_BIT_COUNT_CLOCKS,
      WAIT_LOOP_MISSING_LOCKS, RX_CHECK_START_BIT_CLOCKS, RX_FUNCTION_PRELUDE,
      RX_SET_START_BIT_WAIT_LOOP_COUNTER_CLOCKS, RX_VALIDATE_START_BIT_CLOCKS,
      RX_SET_BIT_COUNTER_CLOCKS, RX_BIT_LOOP_LAG_CLOCKS,
      RX_SET_BIT_WAIT_LOOP_COUNTER_CLOCKS, RX_SHIFT_CARRY_CLOCKS,
      RX_DEC_BIT_COUNTER_CLOCKS, RX_CHECK_BIT_CLOCKS,
      RX_CHECK_BIT_COUNTER_CLOCKS] <;>
    omega

/-- Witness for C10 at the accepted plan of 4 MHz / 38400 baud / 1.5 stop
bits: the key inequalities, extracted from the theorem applied at that
plan. -/
theorem build_ok_no_underflow_witness :
    (TX_BIT_SET_LOOP_LAG_CLOCKS + TX_SET_WAIT_LOOP_COUNTER_CLOCKS
        + TX_SET_PIN_CLOCKS + TX_RESET_BIT_COUNTER_CLOCKS
      ≤ gen4m38400.clocksPerBit) ∧
    (TX_BIT_SET_LOOP_LAG_CLOCKS + TX_SET_PIN_CLOCKS
        + TX_SET_WAIT_LOOP_COUNTER_CLOCKS ≤ gen4m38400.clocksPerStopBit) ∧
    (RX_CHECK_START_BIT_CLOCKS + RX_FUNCTION_PRELUDE
        + RX_SET_START_BIT_WAIT_LOOP_COUNTER_CLOCKS
        + RX_VALIDATE_START_BIT_CLOCKS + RX_SET_BIT_COUNTER_CLOCKS
      ≤ gen4m38400.clocksPerHalfBit) := by
  obtain ⟨⟨h1, -⟩, -, ⟨h3, -⟩, ⟨h4, -⟩, -⟩ :=
    build_ok_no_underflow build_4m_38400
  exact ⟨h1, h3, h4⟩

/-- C3 (code bug, src/uart.rs:133): at 3000 Hz / 100 baud (one stop bit)
the computed `clocks_per_half_bit` is 15, below the minimum 16, and `build`
rejects through the `VeryFewClocksPerHalfBit` branch — but the error payload
is `clocks_per_bit` = 30, not the half-bit count 15 that the variant's own
message text ("Calculated clocks count per half bit ({})") describes. -/
theorem build_half_bit_error_payload :
    build 3000 100 StopBits.one none 0
        = .error (.veryFewClocksPerHalfBit 30) ∧
    (round (((3000 : ℕ) : ℚ) / ((100 : ℕ) : ℚ) * (1 / 2))).toNat = 15 ∧
    (round (((3000 : ℕ) : ℚ) / ((100 : ℕ) : ℚ))).toNat = 30 := by
  have he : ((3000 : ℕ) : ℚ) / ((100 : ℕ) : ℚ) = 30 := by norm_num
  refine ⟨build_3000_100, ?_, ?_⟩
  · rw [he]
    exact round_toNat_eq_of _ _ (by norm_num) (by norm_num)
  · rw [he]
    exact round_toNat_eq_of _ _ (by norm_num) (by norm_num)

/-- C4, counterexample: at 8 MHz / 9600 baud / two stop bits, `build` does
not reject with `TooManyClocksPerBit(833)` — 833 is within the 1024 cap. -/
theorem build_8m_9600_not_per_bit_reject :
    build 8000000 9600 StopBits.two none 0
      ≠ .error (.tooManyClocksPerBit 833) := by
  rw [build_8m_9600_two]
  simp

/-- C4, amended: at 8 MHz / 9600 baud / two stop bits, `clocks_per_bit`
is 833, which passes the data-bit check (`833 ≤ 1024`); the rejection
happens at the stop-bit check, with `TooManyClocksPerStopBit(1667)`. -/
theorem build_8m_9600_stop_bit_reject :
    (round (((8000000 : ℕ) : ℚ) / ((9600 : ℕ) : ℚ))).toNat = 833 ∧
    build 8000000 9600 StopBits.two none 0
      = .error (.tooManyClocksPerStopBit 1667) := by
  refine ⟨?_, build_8m_9600_two⟩
  have he : ((8000000 : ℕ) : ℚ) / ((9600 : ℕ) : ℚ) = 2500 / 3 := by norm_num
  rw [he]
  exact round_toNat_eq_of _ _ (by norm_num) (by norm_num)

/-- C5, counterexample: at 8 MHz / 115200 baud / one stop bit the plan is
accepted, but the TX data-bit decomposition is not `(15, 0)` and the TX
stop-bit tail is not 2 cycles. -/
theorem s1_decomposition_ne_spec :
    build 8000000 115200 StopBits.one none 0 = .ok gen8m115200 ∧
    ¬(txBitWaitCycles gen8m115200 = 15 ∧ txBitTailWaitCycles gen8m115200 = 0) ∧
    txStopBitTailWaitCycles gen8m115200 ≠ 2 := by
  refine ⟨build_8m_115200, ?_, ?_⟩ <;> decide

/-- C5, amended: at 8 MHz / 115200 baud / one stop bit the plan is accepted
with `clocks_per_bit = 69`; the TX start-bit decomposition is 15 loop
iterations with a 1-cycle tail (one `nop`); the TX data-bit decomposition is
14 iterations with a 2-cycle tail (one `goto .+1`); the TX stop-bit
decomposition is 15 iterations with a 3-cycle tail (`goto .+1` then
`nop`). -/
theorem s1_decomposition :
    build 8000000 115200 StopBits.one none 0 = .ok gen8m115200 ∧
    gen8m115200.clocksPerBit = 69 ∧
    txStartBitWaitCycles gen8m115200 = 15 ∧
    txStartBitTailWaitCycles gen8m115200 = 1 ∧
    generateSpaceOptimalNopChain 1 = some ["nop ; 1T"] ∧
    txBitWaitCycles gen8m115200 = 14 ∧
    txBitTailWaitCycles gen8m115200 = 2 ∧
    generateSpaceOptimalNopChain 2 = some ["goto .+1 ; 2T"] ∧
    txStopBitWaitCycles gen8m115200 = 15 ∧
    txStopBitTailWaitCycles gen8m115200 = 3 ∧
    generateSpaceOptimalNopChain 3 = some ["goto .+1 ; 2T", "nop ; 1T"] := by
  exact ⟨build_8m_115200, rfl, rfl, rfl, rfl, rfl, rfl, rfl, rfl, rfl, rfl⟩

/-- C6, counterexample: `Frequency::from_str("4294967khz")` does not
overflow — `4294967 · 1000 = 4294967000 < 2^32` — so it parses
successfully instead of failing with the overflow error. -/
theorem frequency_4294967khz_no_overflow :
    frequencyFromStr ("4294967khz".toList) = .ok 4294967000 ∧
    frequencyFromStr ("4294967khz".toList) ≠ .error "Frequency is too big" := by
  refine ⟨rfl, fun h => ?_⟩
  rw [show frequencyFromStr ("4294967khz".toList) = .ok 4294967000 from rfl] at h
  exact Except.noConfusion h

/-- C6, amended: `"16mhz"` parses to 16000000; `"4294967khz"` parses to
4294967000 (the product fits `u32`; the overflow error needs a larger
prefix, e.g. `"4294968khz"`); `"12foo"` fails with the unknown-suffix
error. -/
theorem frequency_parse_examples :
    frequencyFromStr ("16mhz".toList) = .ok 16000000 ∧
    frequencyFromStr ("4294967khz".toList) = .ok 4294967000 ∧
    frequencyFromStr ("4294968khz".toList) = .error "Frequency is too big" ∧
    frequencyFromStr ("12foo".toList) = .error "Invalid frequency suffix" := by
  exact ⟨rfl, rfl, rfl, rfl⟩

/-- C7 (code bug, src/uart.rs:249): the template's TX stop-bit wait loop is
initialised by the fixed text `MOV a, #15` instead of interpolating
`tx_stop_bit_wait_cycles`.  At 4 MHz / 38400 baud / 1.5 stop bits the
accepted plan needs 37 iterations, but the emitted counter operand is 15. -/
theorem template_stop_bit_counter_mismatch :
    build 4000000 38400 StopBits.oneAndHalf none 0 = .ok gen4m38400 ∧
    txStopBitWaitCycles gen4m38400 = 37 ∧
    templateTxStopBitCounterOperand gen4m38400 = 15 ∧
    templateTxStopBitCounterOperand gen4m38400
      ≠ txStopBitWaitCycles gen4m38400 := by
  refine ⟨build_4m_38400, ?_, ?_, ?_⟩ <;> decide

/-- C8 (code bug, src/config.rs:35-36 vs src/uart.rs:56-74,397): the
`--tx-function-name` argument promises to customise the TX function name,
but the generator never reads it — the emitted TX name is always
`uart{N}_send`, and the RX name is always `uart{N}_receive`. -/
theorem tx_function_name_flag_ignored :
    generatedTxFunctionName (some "my_send") 0 = "uart0_send" ∧
    generatedTxFunctionName (some "my_send") 0 ≠ "my_send" ∧
    generatedTxFunctionName none 0 = "uart0_send" ∧
    generatedRxFunctionName 0 = "uart0_receive" := by
  refine ⟨?_, ?_, ?_, ?_⟩ <;> decide

/-- C9: whenever the tail expander returns a chain, the residual is 0–3,
the chain has at most two instructions, and its cycle sum equals the
residual; for any residual `≥ 4` the expander is a fatal programmer error
(modelled as `none`). -/
theorem nop_chain_spec :
    ∀ count : ℕ,
      (∀ l, generateSpaceOptimalNopChain count = some l →
        l.length ≤ 2 ∧ (l.map instructionCycles).sum = count ∧ count ≤ 3) ∧
      (4 ≤ count → generateSpaceOptimalNopChain count = none) := by
  intro count
  refine ⟨fun l hl => ?_, fun h4 => ?_⟩
  · rcases count with _ | _ | _ | _ | n
    · simp only [generateSpaceOptimalNopChain, Option.some.injEq] at hl
      subst hl
      exact ⟨by decide, by decide, by decide⟩
    · simp only [generateSpaceOptimalNopChain, Option.some.injEq] at hl
      subst hl
      exact ⟨by decide, by decide, by decide⟩
    · simp only [generateSpaceOptimalNopChain, Option.some.injEq] at hl
      subst hl
      exact ⟨by decide, by decide, by decide⟩
    · simp only [generateSpaceOptimalNopChain, Option.some.injEq] at hl
      subst hl
      exact ⟨by decide, by decide, by decide⟩
    · exact absurd hl (by simp [generateSpaceOptimalNopChain])
  · rcases count with _ | _ | _ | _ | n
    · exact absurd h4 (by decide)
    · exact absurd h4 (by decide)
    · exact absurd h4 (by decide)
    · exact absurd h4 (by decide)
    · rfl

/-- Witness for C9: the 3-cycle tail (`goto .+1` then `nop`) and the fatal
case at residual 5. -/
theorem nop_chain_spec_witness :
    ((["goto .+1 ; 2T", "nop ; 1T"] : List String).length ≤ 2 ∧
      ((["goto .+1 ; 2T", "nop ; 1T"] : List String).map instructionCycles).sum = 3 ∧
      (3 : ℕ) ≤ 3) ∧
    generateSpaceOptimalNopChain 5 = none :=
  ⟨(nop_chain_spec 3).1 _ rfl, (nop_chain_spec 5).2 (by decide)⟩

end FreepdkGen
